import Mathlib

/-!
Verification of the youtube-mcp-server repository: a shallow embedding of
the schema-validated tool dispatch engine (`server.py`) and the transcript
selection / handler logic (`handlers.py`), with theorems settling the
claims about the specification.

Python dictionaries/JSON values are embedded as the inductive `JValue`;
Python exceptions are embedded as `Except String`; the external services
(YouTube data API, transcript source, file system) are parameters.
-/

/-- Embedding of a Python/JSON value as passed through the MCP layer.
Numbers are embedded as integers (no claim depends on fractional values). -/
inductive JValue where
  | null : JValue
  | bool (b : Bool) : JValue
  | num (n : Int) : JValue
  | str (s : String) : JValue
  | arr (elems : List JValue) : JValue
  | obj (fields : List (String × JValue)) : JValue
deriving Repr

/-- Python truthiness (`if not x`): None, False, 0, "", [], {} are falsy. -/
def pyTruthy : JValue → Bool
  | .null => false
  | .bool b => b
  | .num n => n != 0
  | .str s => s != ""
  | .arr l => !l.isEmpty
  | .obj l => !l.isEmpty

/-- Python `type(x).__name__` for the embedded values. -/
def pyTypeName : JValue → String
  | .null => "NoneType"
  | .bool _ => "bool"
  | .num _ => "int"
  | .str _ => "str"
  | .arr _ => "list"
  | .obj _ => "dict"

/-- Characters stripped by Python's `str.strip()` (ASCII whitespace; the
further Unicode whitespace Python also strips plays no role here). -/
def isStripped (c : Char) : Bool :=
  c = ' ' || c = '\t' || c = '\n' || c = '\r'

/-- Python `s.strip()` on a string, structurally: leading and trailing
whitespace removed. -/
def pyTrim (s : String) : String :=
  String.mk (((s.data.dropWhile isStripped).reverse.dropWhile isStripped).reverse)

/-- Python `x.strip()`: defined on strings, AttributeError otherwise. -/
def pyStrip : JValue → Except String String
  | .str s => .ok (pyTrim s)
  | v => .error ("'" ++ pyTypeName v ++ "' object has no attribute 'strip'")

/-- Lookup of a key in an embedded Python dict (association list). -/
def pyLookup (fields : List (String × JValue)) (key : String) : Option JValue :=
  (fields.find? (fun p => p.1 == key)).map (·.2)

/-- Python `container[key]` for a string key: KeyError on a dict without the
key, TypeError on non-dict containers. -/
def pyGetItem (v : JValue) (key : String) : Except String JValue :=
  match v with
  | .obj fields =>
    match pyLookup fields key with
    | some x => .ok x
    | none => .error ("'" ++ key ++ "'")
  | .arr _ => .error "list indices must be integers or slices, not str"
  | w => .error ("'" ++ pyTypeName w ++ "' object is not subscriptable")

/-- Python `container.get(key, default)`: defined on dicts, AttributeError
otherwise. -/
def pyGetDefault (v : JValue) (key : String) (dflt : JValue) : Except String JValue :=
  match v with
  | .obj fields =>
    match pyLookup fields key with
    | some x => .ok x
    | none => .ok dflt
  | w => .error ("'" ++ pyTypeName w ++ "' object has no attribute 'get'")

/-- Python iteration `for x in v`: lists yield elements, strings yield their
characters as one-character strings, dicts yield their keys; other values
raise TypeError. -/
def pyIter : JValue → Except String (List JValue)
  | .arr l => .ok l
  | .str s => .ok (s.data.map (fun c => .str (String.mk [c])))
  | .obj fields => .ok (fields.map (fun p => .str p.1))
  | v => .error ("'" ++ pyTypeName v ++ "' object is not iterable")

/-- Python `len(v)` on sized values; TypeError otherwise. -/
def pyLen : JValue → Except String Nat
  | .arr l => .ok l.length
  | .str s => .ok s.length
  | .obj fields => .ok fields.length
  | v => .error ("object of type '" ++ pyTypeName v ++ "' has no len()")

/-- Python `sep.join(elems)`: every element must be a string. -/
def pyJoin (sep : String) : List JValue → Except String String
  | [] => .ok ""
  | [.str s] => .ok s
  | .str s :: rest =>
    match pyJoin sep rest with
    | .ok r => .ok (s ++ sep ++ r)
    | .error e => .error e
  | v :: _ =>
    .error ("sequence item: expected str instance, " ++ pyTypeName v ++ " found")

/-- Setting `d[key] = value` on an embedded dict: replaces an existing
binding in place, otherwise appends. Non-dicts are returned unchanged
(the source only assigns into values it just read as dicts). -/
def pySetItem (v : JValue) (key : String) (value : JValue) : JValue :=
  match v with
  | .obj fields =>
    if fields.any (fun p => p.1 == key) then
      .obj (fields.map (fun p => if p.1 == key then (p.1, value) else p))
    else
      .obj (fields ++ [(key, value)])
  | w => w

/-- One character list starting with another. -/
def charsStartWith : List Char → List Char → Bool
  | _, [] => true
  | [], _ :: _ => false
  | c :: cs, d :: ds => c = d && charsStartWith cs ds

/-- Substring test on character lists. -/
def charsContain (hay needle : List Char) : Bool :=
  match hay with
  | [] => needle.isEmpty
  | _ :: rest => charsStartWith hay needle || charsContain rest needle

/-- Membership `needle in container` for a string needle: substring test on
strings, key test on dicts, element-equality test on lists, TypeError on
non-container values. -/
def pyContains (container : JValue) (needle : String) : Except String Bool :=
  match container with
  | .obj fields => .ok (fields.any (fun p => p.1 == needle))
  | .arr l => .ok (l.any (fun e => match e with | .str s => s == needle | _ => false))
  | .str s => .ok (charsContain s.data needle.data)
  | v => .error ("argument of type '" ++ pyTypeName v ++ "' is not iterable")

/-! ### parse_duration (handlers.py lines 25-41)

The Python code matches `duration_str` against the regular expression
`PT(?:(\d+)H)?(?:(\d+)M)?(?:(\d+)S)?` with `re.match`, which anchors at the
start of the string only (a prefix match, trailing text is ignored).
Because no digit is the letter `H`/`M`/`S`, each optional group matches
exactly when the maximal digit run at the current position is non-empty and
immediately followed by the group's letter; otherwise the group matches the
empty string. The matcher below compiles that behaviour directly. -/

/-- Numeric value of a list of decimal digit characters (Python `int`). -/
def natOfDigits (ds : List Char) : Nat :=
  ds.foldl (fun acc c => acc * 10 + (c.toNat - '0'.toNat)) 0

/-- One optional regex group `(?:(\d+)L)?` at the current position: consumes
the maximal digit run plus the letter `L` when that run is non-empty and
`L` follows, otherwise consumes nothing and captures nothing. -/
def ptGroup (letter : Char) (cs : List Char) : Option Nat × List Char :=
  let ds := cs.takeWhile (·.isDigit)
  let rest := cs.dropWhile (·.isDigit)
  match rest with
  | c :: rest' =>
    if c = letter && !ds.isEmpty then (some (natOfDigits ds), rest')
    else (none, cs)
  | [] => (none, cs)

/-- Remainder of the string after the regex prefix match, with the three
captured groups (hours, minutes, seconds). `none` when the literal `PT`
does not match at the start. -/
def ptMatch (s : String) : Option ((Option Nat × Option Nat × Option Nat) × List Char) :=
  match s.data with
  | c1 :: c2 :: rest =>
    if c1 = 'P' ∧ c2 = 'T' then
      let (h, r1) := ptGroup 'H' rest
      let (m, r2) := ptGroup 'M' r1
      let (sec, r3) := ptGroup 'S' r2
      some ((h, m, sec), r3)
    else none
  | _ => none

/-- Embedding of `parse_duration` (handlers.py): ISO-8601 `PT` duration to
seconds; `0` for the empty string and for strings the regex does not match. -/
def parse_duration (duration_str : String) : Nat :=
  if duration_str = "" then 0
  else
    match ptMatch duration_str with
    | none => 0
    | some ((h, m, sec), _) =>
      h.getD 0 * 3600 + m.getD 0 * 60 + sec.getD 0

/-- A string fully matching the ISO-8601 `PT` duration pattern (the claim's
reading of the pattern, anchored at both ends): follows the spec's words,
for comparison with the prefix-matching `parse_duration` of the source. -/
def isFullPTMatch (s : String) : Bool :=
  match ptMatch s with
  | some (_, rest) => rest.isEmpty
  | none => false

/-! ### The structural Validator

Modelled from the spec: the repository delegates structural JSON-Schema
validation to the external `jsonschema` library (not part of the
repository); the spec's Validator (§4.2) over the spec's SchemaNode (§3)
is embedded here: type match, required properties present, nested
property/array validation, permissive extra properties, `$ref` resolution
against a shared definitions table, failing closed on an unresolved `$ref`.
First failure wins; the outcome is always a value. -/

structure ValidationOutcome where
  valid : Bool
  message : String
deriving Repr, DecidableEq

/-- The spec's recursive SchemaNode: `type`, `properties`, `required`,
`items`, `$ref`. -/
inductive SchemaNode where
  | node (typeName : Option String)
         (properties : List (String × SchemaNode))
         (required : List String)
         (items : Option SchemaNode)
         (ref : Option String) : SchemaNode

/-- A schema constraining only the JSON type. -/
def SchemaNode.ofType (t : String) : SchemaNode :=
  .node (some t) [] [] none none

/-- JSON-Schema primitive type match. -/
def typeMatches (t : String) (v : JValue) : Bool :=
  match t, v with
  | "object", .obj _ => true
  | "array", .arr _ => true
  | "string", .str _ => true
  | "number", .num _ => true
  | "integer", .num _ => true
  | "boolean", .bool _ => true
  | "null", .null => true
  | _, _ => false

/-- The pass outcome. -/
def vOk : ValidationOutcome := ⟨true, "ok"⟩

/-- First failing outcome of a list of outcomes, else pass. -/
def firstFailure (outs : List ValidationOutcome) : ValidationOutcome :=
  match outs.find? (fun o => !o.valid) with
  | some o => o
  | none => vOk

/-- Structural validation of a value against a SchemaNode with a shared
definitions table; `fuel` bounds `$ref` chains (fail closed at 0). -/
def validate (fuel : Nat) (defs : List (String × SchemaNode))
    (schema : SchemaNode) (v : JValue) : ValidationOutcome :=
  match fuel with
  | 0 => ⟨false, "validation depth exceeded"⟩
  | fuel + 1 =>
    match schema with
    | .node typeName properties required items ref =>
      match ref with
      | some r =>
        match (defs.find? (fun p => p.1 == r)).map (·.2) with
        | some resolved => validate fuel defs resolved v
        | none => ⟨false, "unresolved ref " ++ r⟩
      | none =>
        let typeCheck : ValidationOutcome :=
          match typeName with
          | some t =>
            if typeMatches t v then vOk
            else ⟨false, "expected type " ++ t ++ ", got " ++ pyTypeName v⟩
          | none => vOk
        if !typeCheck.valid then typeCheck
        else
          match v with
          | .obj fields =>
            let reqCheck : ValidationOutcome :=
              match required.find? (fun name => !(fields.any (fun p => p.1 == name))) with
              | some name => ⟨false, "required property missing: " ++ name⟩
              | none => vOk
            if !reqCheck.valid then reqCheck
            else
              firstFailure (properties.map (fun prop =>
                match pyLookup fields prop.1 with
                | some fv => validate fuel defs prop.2 fv
                | none => vOk))
          | .arr elems =>
            match items with
            | some itemSchema =>
              firstFailure (elems.map (fun e => validate fuel defs itemSchema e))
            | none => vOk
          | _ => vOk

/-- Modelled from the spec: `validateInput(arguments, inputSchema)` (§4.2). -/
def validateInput (arguments : JValue) (inputSchema : SchemaNode) : ValidationOutcome :=
  validate 100 [] inputSchema arguments

/-- Modelled from the spec: `validateOutput(result, outputSchema, definitions)`
(§4.2); the schema is validated together with the shared definitions table. -/
def validateOutput (result : JValue) (outputSchema : SchemaNode)
    (definitions : List (String × SchemaNode)) : ValidationOutcome :=
  validate 100 definitions outputSchema result

/-! ### The dispatch boundary types

A handler invocation records an execution trace (the names of handler
bodies that began executing, plus any external API requests) alongside the
Python-level outcome: `.error` embeds a raised exception's message,
`.ok none` embeds a `None` result, `.ok (some v)` a value result. -/

/-- The `arguments` dict of a tool call. -/
abbrev ToolArgs := List (String × JValue)

/-- A registered handler: arguments to trace and outcome. -/
abbrev ToolHandler := ToolArgs → List String × Except String (Option JValue)

/-! ### The transcript tool (handlers.py lines 203-315)

The transcript source (the external `youtube-transcript-api` library) is a
parameter: listing the tracks of a video either yields a finite list of
`TranscriptTrack`s or signals one of the library's error conditions, and
fetching a selected track's cues likewise. -/

/-- An error condition signalled by the external transcript source,
following the source's exception types imported in handlers.py. `exn`
covers any other exception. -/
inductive SrcSignal where
  | transcriptsDisabled : SrcSignal
  | noTranscriptFound : SrcSignal
  | videoUnavailable : SrcSignal
  | exn (msg : String) : SrcSignal
deriving Repr, DecidableEq

/-- A raw cue as yielded by a track's `fetch()`: `text` passes through the
dispatch verbatim (any value), the times are numbers. -/
structure CueRaw where
  text : JValue
  start : Int
  duration : Int
deriving Repr

/-- One caption track offered by the transcript source for a video. -/
structure TranscriptTrack where
  language_code : String
  is_generated : Bool
  fetchResult : Except SrcSignal (List CueRaw)
deriving Repr

/-- Outcome of the source's `api.list(video_id)`. -/
inductive ListOutcome where
  | ok (tracks : List TranscriptTrack) : ListOutcome
  | raises (e : SrcSignal) : ListOutcome
deriving Repr

/-- Modelled from the spec: the transcript source's `find_transcript`
(external youtube-transcript-api library, not part of the repository):
yields a track whose language code equals the requested code, `none` when
no such track exists (the library then raises NoTranscriptFound, which
handlers.py catches locally). -/
def find_transcript (tracks : List TranscriptTrack) (code : String) :
    Option TranscriptTrack :=
  tracks.find? (fun t => t.language_code == code)

/-- The selection logic of `get_transcript` (handlers.py lines 229-267):
requested language first (when given and non-blank), then English, then the
first manually created track, then the first track; together with the
language code the result reports. -/
def selectTrack (tracks : List TranscriptTrack) (language : Option String) :
    Option (TranscriptTrack × String) :=
  let step1 : Option (TranscriptTrack × String) :=
    match language with
    | some l =>
      if pyTrim l ≠ "" then (find_transcript tracks (pyTrim l)).map (fun t => (t, pyTrim l))
      else none
    | none => none
  match step1 with
  | some r => some r
  | none =>
    match find_transcript tracks "en" with
    | some t => some (t, "en")
    | none =>
      match tracks.find? (fun t => !t.is_generated) with
      | some t => some (t, t.language_code)
      | none =>
        match tracks.head? with
        | some t => some (t, t.language_code)
        | none => none

/-- The "no transcript available" result (handlers.py lines 269-275 and the
TranscriptsDisabled / NoTranscriptFound except clauses). -/
def emptyTranscriptResult (video_id : String) : JValue :=
  .obj [("videoId", .str video_id), ("transcript", .arr []),
        ("available", .bool false), ("language", .null)]

/-- One formatted transcript entry (handlers.py lines 282-289). -/
def formatCue (c : CueRaw) : JValue :=
  .obj [("text", c.text), ("start", .num c.start), ("duration", .num c.duration)]

/-- The successful transcript result (handlers.py lines 291-296). -/
def fullTranscriptResult (video_id : String) (cues : List CueRaw)
    (language_code : String) : JValue :=
  .obj [("videoId", .str video_id),
        ("transcript", .arr (cues.map formatCue)),
        ("available", .bool true), ("language", .str language_code)]

/-- The four except clauses of `get_transcript` (handlers.py lines 298-315):
disabled / not-found become the normal empty result, an unavailable video
becomes a raised ValueError, anything else a wrapped ValueError. -/
def transcriptExceptClauses (video_id : String) (e : SrcSignal) :
    Except String JValue :=
  match e with
  | .transcriptsDisabled => .ok (emptyTranscriptResult video_id)
  | .noTranscriptFound => .ok (emptyTranscriptResult video_id)
  | .videoUnavailable =>
    .error ("Video " ++ video_id ++ " is unavailable or does not exist")
  | .exn msg => .error ("Unexpected error during transcript retrieval: " ++ msg)

/-- The try block of `get_transcript` (handlers.py lines 224-315) for an
already-stripped non-empty video id and an already-resolved optional
language string. -/
def get_transcript_core (video_id : String) (language : Option String)
    (src : ListOutcome) : Except String JValue :=
  match src with
  | .raises e => transcriptExceptClauses video_id e
  | .ok tracks =>
    match selectTrack tracks language with
    | none => .ok (emptyTranscriptResult video_id)
    | some (t, language_code) =>
      match t.fetchResult with
      | .error e => transcriptExceptClauses video_id e
      | .ok cues => .ok (fullTranscriptResult video_id cues language_code)

/-- Embedding of the `get_transcript` handler (handlers.py lines 203-315)
including Python keyword binding for `get_transcript(videoId, language=None)`
and the duck-typed input checks that run before the try block. -/
def get_transcript_fn (src : ListOutcome) : ToolHandler := fun args =>
  match args.find? (fun p => !(p.1 == "videoId" || p.1 == "language")) with
  | some p =>
    ([], .error ("get_transcript() got an unexpected keyword argument '" ++ p.1 ++ "'"))
  | none =>
    match pyLookup args "videoId" with
    | none =>
      ([], .error "get_transcript() missing 1 required positional argument: 'videoId'")
    | some videoId =>
      let language := (pyLookup args "language").getD .null
      (["get_transcript"],
        ((if !pyTruthy videoId then
          .error "videoId parameter is required and cannot be empty"
        else
          match pyStrip videoId with
          | .error e => .error e
          | .ok stripped =>
            if stripped = "" then
              .error "videoId parameter is required and cannot be empty"
            else
              match language with
              | .str l => get_transcript_core stripped (some l) src
              | .null => get_transcript_core stripped none src
              | v =>
                if pyTruthy v then
                  .error ("Unexpected error during transcript retrieval: '"
                    ++ pyTypeName v ++ "' object has no attribute 'strip'")
                else get_transcript_core stripped none src
          : Except String JValue)).map Option.some)

/-! ### The get_videos tool (handlers.py lines 119-200) -/

/-- Outcome of one external YouTube data API request (`execute()`): a parsed
response, an HttpError whose detail message is already resolved (the
resolution from `error_details` is external-data plumbing), or any other
exception. -/
inductive ApiOutcome where
  | ok (resp : JValue) : ApiOutcome
  | httpError (msg : String) : ApiOutcome
  | exn (msg : String) : ApiOutcome
deriving Repr

/-- The twelve valid part names of `get_videos` (handlers.py lines 147-160). -/
def valid_parts : List String :=
  ["snippet", "contentDetails", "statistics", "status", "player",
   "recordingDetails", "fileDetails", "processingDetails", "suggestions",
   "liveStreamingDetails", "localizations", "topicDetails"]

/-- One video id passes the loop check of handlers.py lines 138-140:
`not video_id or not isinstance(video_id, str) or not video_id.strip()`
raises, so a valid entry is exactly a string whose strip is non-empty. -/
def videoIdOk : JValue → Bool
  | .str s => pyTrim s != ""
  | _ => false

/-- An element of `parts` that survives `set(parts) - valid_parts` being
empty: a string among the twelve valid part names (non-string hashable
elements are never in the valid set). -/
def partOk : JValue → Bool
  | .str s => valid_parts.contains s
  | _ => false

/-- A value Python cannot hash (would make `set(parts)` raise TypeError). -/
def unhashable : JValue → Bool
  | .arr _ => true
  | .obj _ => true
  | _ => false

/-- The per-video post-processing of handlers.py lines 178-185: when
`contentDetails` was requested and is present with a `duration`, a
`durationSeconds` field holding `parse_duration` of it is added in place. -/
def processVideo (parts : JValue) (video : JValue) : Except String JValue := do
  let inParts ← pyContains parts "contentDetails"
  if !inParts then return video
  let inVideo ← pyContains video "contentDetails"
  if !inVideo then return video
  let cd ← pyGetItem video "contentDetails"
  let hasDur ← pyContains cd "duration"
  if !hasDur then return video
  let dur ← pyGetItem cd "duration"
  match dur with
  | .str dstr =>
    return pySetItem video "contentDetails"
      (pySetItem cd "durationSeconds" (.num (parse_duration dstr)))
  | v =>
    .error ("expected string or bytes-like object, got '" ++ pyTypeName v ++ "'")

/-- The processing loop over `videos_response["items"]`. -/
def processVideos (parts : JValue) : List JValue → Except String (List JValue)
  | [] => .ok []
  | v :: rest => do
    let v' ← processVideo parts v
    let rest' ← processVideos parts rest
    return v' :: rest'

/-- The response dict of `get_videos` (handlers.py lines 188-191). -/
def videosResponseResult (items : List JValue) : JValue :=
  .obj [("items", .arr items),
        ("pageInfo", .obj [("totalResults", .num items.length),
                           ("resultsPerPage", .num items.length)])]

/-- The try block of `get_videos` (handlers.py lines 167-200): API key check
inside `build_youtube_service`, the API request, response processing; an
HttpError becomes `YouTube API error: ...`, any other exception becomes
`Unexpected error during video retrieval: ...`. -/
def get_videos_try (parts : JValue) (hasApiKey : Bool) (api : ApiOutcome) :
    Except String JValue :=
  if !hasApiKey then
    .error "Unexpected error during video retrieval: YOUTUBE_API_KEY environment variable is required"
  else
    match api with
    | .httpError m => .error ("YouTube API error: " ++ m)
    | .exn m => .error ("Unexpected error during video retrieval: " ++ m)
    | .ok resp =>
      match (do
        let itemsVal ← pyGetItem resp "items"
        let items ← pyIter itemsVal
        processVideos parts items : Except String (List JValue)) with
      | .error e => .error ("Unexpected error during video retrieval: " ++ e)
      | .ok items => .ok (videosResponseResult items)

/-- The body of `get_videos` (handlers.py lines 119-200): the validation of
`ids`, the defaulting and validation of `parts` (all before any API
interaction), then the try block. The Python message for invalid parts
interpolates two sets in hash order, which is not reproduced literally. -/
def get_videos_body (ids partsArg : JValue) (hasApiKey : Bool)
    (api : ApiOutcome) : Except String JValue :=
  if !pyTruthy ids then .error "ids parameter is required and cannot be empty"
  else
    match pyLen ids with
    | .error e => .error e
    | .ok n =>
      if n > 50 then .error "Maximum 50 video IDs allowed per request"
      else
        match pyIter ids with
        | .error e => .error e
        | .ok idVals =>
          if idVals.any (fun v => !videoIdOk v) then
            .error "All video IDs must be non-empty strings"
          else
            let parts := match partsArg with
              | .null => JValue.arr [.str "snippet"]
              | p => p
            match pyIter parts with
            | .error e => .error e
            | .ok partVals =>
              if partVals.any unhashable then
                .error "unhashable type"
              else if partVals.any (fun v => !partOk v) then
                .error "Invalid parts: not all parts are among the valid parts"
              else
                get_videos_try parts hasApiKey api

/-- Embedding of the `get_videos` handler including Python keyword binding
for `get_videos(ids, parts=None)`. -/
def get_videos_fn (hasApiKey : Bool) (api : ApiOutcome) : ToolHandler := fun args =>
  match args.find? (fun p => !(p.1 == "ids" || p.1 == "parts")) with
  | some p =>
    ([], .error ("get_videos() got an unexpected keyword argument '" ++ p.1 ++ "'"))
  | none =>
    match pyLookup args "ids" with
    | none =>
      ([], .error "get_videos() missing 1 required positional argument: 'ids'")
    | some ids =>
      let partsArg := (pyLookup args "parts").getD .null
      (["get_videos"], (get_videos_body ids partsArg hasApiKey api).map Option.some)

/-! ### The search_videos tool (handlers.py lines 50-116) -/

/-- Processing of one search result item (handlers.py lines 85-90). -/
def processSearchItem (item : JValue) : Except String JValue := do
  let idVal ← pyGetItem item "id"
  let kind ← pyGetItem idVal "kind"
  let videoId ← pyGetItem idVal "videoId"
  let snippet ← pyGetItem item "snippet"
  return .obj [("id", .obj [("kind", kind), ("videoId", videoId)]),
               ("snippet", snippet)]

/-- The processing loop over `search_response["items"]`. -/
def processSearchItems : List JValue → Except String (List JValue)
  | [] => .ok []
  | v :: rest => do
    let v' ← processSearchItem v
    let rest' ← processSearchItems rest
    return v' :: rest'

/-- Building the `search_videos` response (handlers.py lines 84-109):
processed items, page info, and the pagination tokens when present and
truthy. -/
def searchResponseResult (resp : JValue) : Except String JValue := do
  let itemsVal ← pyGetItem resp "items"
  let rawItems ← pyIter itemsVal
  let items ← processSearchItems rawItems
  let pageInfo ← pyGetDefault resp "pageInfo" (.obj [])
  let totalResults ← pyGetDefault pageInfo "totalResults" (.num 0)
  let base := JValue.obj [("items", .arr items),
    ("pageInfo", .obj [("totalResults", totalResults),
                       ("resultsPerPage", .num items.length)])]
  let nextTok ← pyGetDefault resp "nextPageToken" .null
  let withNext := if pyTruthy nextTok then pySetItem base "nextPageToken" nextTok else base
  let prevTok ← pyGetDefault resp "prevPageToken" .null
  return if pyTruthy prevTok then pySetItem withNext "prevPageToken" prevTok else withNext

/-- The body of `search_videos` (handlers.py lines 50-116): the query
check (before the try block), then the try block with the API key check,
the API request and the response processing. -/
def search_videos_body (query pageToken : JValue) (hasApiKey : Bool)
    (api : ApiOutcome) : Except String JValue :=
  if !pyTruthy query then
    .error "query parameter is required and cannot be empty"
  else
    match pyStrip query with
    | .error e => .error e
    | .ok q =>
      if q = "" then .error "query parameter is required and cannot be empty"
      else
        let _ := pageToken
        if !hasApiKey then
          .error "Unexpected error during video search: YOUTUBE_API_KEY environment variable is required"
        else
          match api with
          | .httpError m => .error ("YouTube API error: " ++ m)
          | .exn m => .error ("Unexpected error during video search: " ++ m)
          | .ok resp =>
            match searchResponseResult resp with
            | .error e => .error ("Unexpected error during video search: " ++ e)
            | .ok result => .ok result

/-- Embedding of the `search_videos` handler including Python keyword
binding for `search_videos(query, pageToken=None)`. -/
def search_videos_fn (hasApiKey : Bool) (api : ApiOutcome) : ToolHandler := fun args =>
  match args.find? (fun p => !(p.1 == "query" || p.1 == "pageToken")) with
  | some p =>
    ([], .error ("search_videos() got an unexpected keyword argument '" ++ p.1 ++ "'"))
  | none =>
    match pyLookup args "query" with
    | none =>
      ([], .error "search_videos() missing 1 required positional argument: 'query'")
    | some query =>
      let pageToken := (pyLookup args "pageToken").getD .null
      (["search_videos"],
        (search_videos_body query pageToken hasApiKey api).map Option.some)

/-! ### The registries and the dispatch engine (server.py) -/

/-- The external collaborators of one process run: the presence of the
`YOUTUBE_API_KEY` environment variable and the behaviour of the external
search API, videos API and transcript source. -/
structure World where
  hasApiKey : Bool
  searchApi : ApiOutcome
  videosApi : ApiOutcome
  transcriptSrc : ListOutcome

/-- Embedding of the `TOOL_FUNCTIONS` mapping (handlers.py lines 319-323). -/
def TOOL_FUNCTIONS (w : World) : List (String × ToolHandler) :=
  [("search_videos", search_videos_fn w.hasApiKey w.searchApi),
   ("get_videos", get_videos_fn w.hasApiKey w.videosApi),
   ("get_transcript", get_transcript_fn w.transcriptSrc)]

/-- Lookup in a registry (`name in TOOL_FUNCTIONS` / `TOOL_FUNCTIONS[name]`). -/
def lookupTool (funcs : List (String × ToolHandler)) (name : String) :
    Option ToolHandler :=
  (funcs.find? (fun p => p.1 == name)).map (·.2)

/-- Embedding of `handle_call_tool` (server.py lines 66-80): unknown names
raise `Unknown tool: ...`; otherwise the arguments (an absent mapping
becomes `{}`) are passed to the looked-up handler, whose result is returned
as-is; any exception the call raises is re-raised as
`Tool execution error: ...`. The first component is the execution trace
(names of handler bodies that began executing). -/
def handle_call_tool (funcs : List (String × ToolHandler)) (name : String)
    (arguments : Option ToolArgs) : List String × Except String (Option JValue) :=
  match lookupTool funcs name with
  | none => ([], .error ("Unknown tool: " ++ name))
  | some f =>
    let args := arguments.getD []
    let (trace, result) := f args
    match result with
    | .ok r => (trace, .ok r)
    | .error e => (trace, .error ("Tool execution error: " ++ e))

/-! ### The Schema Registry (server.py lines 21-47) -/

/-- One entry of the `tools` sequence of the schema resource. -/
structure ToolSchemaEntry where
  name : String
  description : String
  inputSchema : SchemaNode
  outputSchema : SchemaNode

/-- The state of the schema resource at one of the two candidate paths:
absent (FileNotFoundError), malformed (json.JSONDecodeError), or a parsed
document carrying its `tools` sequence. -/
inductive FileState where
  | absent : FileState
  | malformed : FileState
  | wellFormed (tools : List ToolSchemaEntry) : FileState

/-- Embedding of `load_tool_schemas` (server.py lines 26-44) over the states
of the package copy of `tools.json` and the working-directory fallback: the
first candidate that opens is parsed; a missing file falls through to the
next candidate; a parse failure logs and returns the empty mapping, as does
exhausting both candidates. -/
def load_tool_schemas (pkgFile cwdFile : FileState) :
    List (String × ToolSchemaEntry) :=
  match pkgFile with
  | .wellFormed tools => tools.map (fun t => (t.name, t))
  | .malformed => []
  | .absent =>
    match cwdFile with
    | .wellFormed tools => tools.map (fun t => (t.name, t))
    | .malformed => []
    | .absent => []

/-! ### The schema resource

Modelled from the spec: `tools.json` is part of the repository but not
among the provided source files; the spec (§1, §2, §6) describes one
contract per exposed tool — search, bulk lookup, transcript retrieval —
whose names must coincide with the Handler Registry's, with input/output
schemas as sketched by the spec's data model (§3, §4.4). -/

/-- Modelled from the spec: the input schema of `search_videos`. -/
def searchVideosInputSchema : SchemaNode :=
  .node (some "object")
    [("query", .ofType "string"), ("pageToken", .ofType "string")]
    ["query"] none none

/-- Modelled from the spec: the output schema of `search_videos`. -/
def searchVideosOutputSchema : SchemaNode :=
  .node (some "object")
    [("items", .node (some "array") [] [] (some (.ofType "object")) none),
     ("pageInfo", .ofType "object")]
    ["items", "pageInfo"] none none

/-- Modelled from the spec: the input schema of `get_videos`. -/
def getVideosInputSchema : SchemaNode :=
  .node (some "object")
    [("ids", .node (some "array") [] [] (some (.ofType "string")) none),
     ("parts", .node (some "array") [] [] (some (.ofType "string")) none)]
    ["ids"] none none

/-- Modelled from the spec: the output schema of `get_videos`. -/
def getVideosOutputSchema : SchemaNode :=
  .node (some "object")
    [("items", .node (some "array") [] [] (some (.ofType "object")) none),
     ("pageInfo", .ofType "object")]
    ["items", "pageInfo"] none none

/-- Modelled from the spec: the input schema of `get_transcript` (§6:
`videoId`, optional `language`). -/
def getTranscriptInputSchema : SchemaNode :=
  .node (some "object")
    [("videoId", .ofType "string"), ("language", .ofType "string")]
    ["videoId"] none none

/-- Modelled from the spec: one transcript cue of the output schema (§3
TranscriptCue: text, start, duration). -/
def transcriptCueSchema : SchemaNode :=
  .node (some "object")
    [("text", .ofType "string"), ("start", .ofType "number"),
     ("duration", .ofType "number")]
    ["text", "start", "duration"] none none

/-- Modelled from the spec: the output schema of `get_transcript` (§4.4:
`transcript`, `available`, `language`; `language` may be null so it is left
unconstrained, schemas being permissive). -/
def getTranscriptOutputSchema : SchemaNode :=
  .node (some "object")
    [("videoId", .ofType "string"),
     ("transcript", .node (some "array") [] [] (some transcriptCueSchema) none),
     ("available", .ofType "boolean")]
    ["videoId", "transcript", "available"] none none

/-- Modelled from the spec: the `tools` sequence of the schema resource. -/
def toolsJsonModel : List ToolSchemaEntry :=
  [⟨"search_videos", "Search for videos on YouTube",
    searchVideosInputSchema, searchVideosOutputSchema⟩,
   ⟨"get_videos", "Get detailed information about specific YouTube videos",
    getVideosInputSchema, getVideosOutputSchema⟩,
   ⟨"get_transcript", "Get transcript for a specific YouTube video",
    getTranscriptInputSchema, getTranscriptOutputSchema⟩]

/-- The `TOOL_SCHEMAS` value of server.py line 47 in the intended
configuration (package copy present and well-formed). -/
def TOOL_SCHEMAS : List (String × ToolSchemaEntry) :=
  load_tool_schemas (.wellFormed toolsJsonModel) .absent

/-! ## Theorems -/

/-- `find?` misses exactly when no element satisfies the predicate. -/
theorem find_none_of_all {α} (p : α → Bool) :
    ∀ l : List α, (∀ x ∈ l, p x = false) → l.find? p = none := by
  intro l h
  induction l with
  | nil => rfl
  | cons a t ih =>
    have ha := h a (List.mem_cons_self a t)
    simp [List.find?, ha]
    exact fun x hx => h x (List.mem_cons_of_mem a hx)

/-- `find?` hits when some element satisfies the predicate, and the hit is a
member satisfying it. -/
theorem find_some_of_exists {α} (p : α → Bool) :
    ∀ l : List α, (∃ x ∈ l, p x = true) →
      ∃ y, l.find? p = some y ∧ y ∈ l ∧ p y = true := by
  intro l h
  induction l with
  | nil => obtain ⟨x, hx, _⟩ := h; cases hx
  | cons a t ih =>
    by_cases ha : p a = true
    · exact ⟨a, by simp [List.find?, ha], List.mem_cons_self a t, ha⟩
    · have ha' : p a = false := by cases hpa : p a with
        | true => exact absurd hpa ha
        | false => rfl
      obtain ⟨x, hx, hpx⟩ := h
      rcases List.mem_cons.mp hx with rfl | hxt
      · exact absurd hpx ha
      · obtain ⟨y, hy, hyt, hpy⟩ := ih ⟨x, hxt, hpx⟩
        exact ⟨y, by simp [List.find?, ha', hy], List.mem_cons_of_mem a hyt, hpy⟩

/-- The trace of a dispatched call to a registered tool is the called
handler's trace: the dispatch adds no steps of its own around the handler. -/
theorem dispatch_trace_eq (funcs : List (String × ToolHandler)) (name : String)
    (f : ToolHandler) (args : ToolArgs)
    (h : lookupTool funcs name = some f) :
    (handle_call_tool funcs name (some args)).1 = (f args).1 := by
  simp only [handle_call_tool, h, Option.getD_some]
  rcases hf : f args with ⟨tr, res⟩
  cases res <;> simp

/-- C6: for every tool name not present in the registry, `handle_call_tool`
raises `Unknown tool: ...` with an empty execution trace — no handler body
ever starts executing. -/
theorem unknown_tool_rejected (w : World) (name : String)
    (arguments : Option ToolArgs)
    (h : lookupTool (TOOL_FUNCTIONS w) name = none) :
    handle_call_tool (TOOL_FUNCTIONS w) name arguments
      = ([], .error ("Unknown tool: " ++ name)) := by
  simp [handle_call_tool, h]

/-- Witness for `unknown_tool_rejected` at the concrete name
`no_such_tool`. -/
theorem unknown_tool_rejected_witness :
    handle_call_tool
        (TOOL_FUNCTIONS ⟨true, .exn "offline", .exn "offline", .ok []⟩)
        "no_such_tool" (some [])
      = ([], .error "Unknown tool: no_such_tool") :=
  unknown_tool_rejected ⟨true, .exn "offline", .exn "offline", .ok []⟩
    "no_such_tool" (some []) rfl

/-- C8: the tool names of the Schema Registry (the loaded `tools.json`
model) and of the Handler Registry (`TOOL_FUNCTIONS`) coincide, in order:
no orphan schema, no orphan handler. -/
theorem registries_in_sync (w : World) :
    TOOL_SCHEMAS.map Prod.fst = (TOOL_FUNCTIONS w).map Prod.fst := rfl

/-- C4 counterexample: with the schema resource absent at both candidate
paths (or malformed), `load_tool_schemas` does not fail — it returns the
empty registry — and dispatch still operates: a tool call against the
handler registry completes normally in that very configuration. -/
theorem schema_load_not_fatal :
    load_tool_schemas .absent .absent = []
    ∧ load_tool_schemas .malformed .absent = []
    ∧ (handle_call_tool
        (TOOL_FUNCTIONS ⟨true, .exn "offline", .exn "offline",
          .raises .transcriptsDisabled⟩)
        "get_transcript" (some [("videoId", .str "abc")])).2
      = .ok (some (emptyTranscriptResult "abc")) :=
  ⟨rfl, rfl, rfl⟩

/-- C4 amended: when the schema resource is missing at both locations, or
malformed at the first candidate that opens, `load_tool_schemas` returns an
empty mapping (after logging) instead of failing; startup proceeds, and
`handle_call_tool` — which consults only the handler registry — still
invokes handlers regardless of the schema registry's content. -/
theorem schema_load_failure_returns_empty (cwdFile : FileState) :
    load_tool_schemas .absent .absent = []
    ∧ load_tool_schemas .malformed cwdFile = []
    ∧ load_tool_schemas .absent .malformed = []
    ∧ ∀ w : World,
        (handle_call_tool (TOOL_FUNCTIONS w) "get_transcript"
          (some [("videoId", .str "abc")])).1 = ["get_transcript"] := by
  refine ⟨rfl, rfl, rfl, fun w => ?_⟩
  exact dispatch_trace_eq _ _ (get_transcript_fn w.transcriptSrc) _ rfl

/-- C7 counterexample: a handler completing with a `None` result is passed
through by `handle_call_tool` as a success, not reported as a
`HandlerError` / "no result". -/
theorem null_result_passed_through :
    handle_call_tool [("t", fun _ => (["t"], .ok none))] "t" (some [])
      = (["t"], .ok none) := rfl

/-- A handler outcome wrapped with `Option.some` is never the `None`
success. -/
theorem map_some_ne_ok_none (x : Except String JValue) :
    Except.map Option.some x ≠ .ok none := by
  cases x <;> simp [Except.map]

/-- C7 amended: the dispatch contains no null-result check — a handler's
`None` result is returned verbatim as a success — and none of the three
registered handlers can produce a `None` result (each returns a dict or
raises). -/
theorem no_null_result_check :
    (∀ (funcs : List (String × ToolHandler)) (name : String)
        (f : ToolHandler) (args : ToolArgs) (tr : List String),
       lookupTool funcs name = some f → f args = (tr, .ok none) →
       handle_call_tool funcs name (some args) = (tr, .ok none)) ∧
    (∀ (k : Bool) (api : ApiOutcome) (args : ToolArgs),
       (search_videos_fn k api args).2 ≠ .ok none) ∧
    (∀ (k : Bool) (api : ApiOutcome) (args : ToolArgs),
       (get_videos_fn k api args).2 ≠ .ok none) ∧
    (∀ (src : ListOutcome) (args : ToolArgs),
       (get_transcript_fn src args).2 ≠ .ok none) := by
  refine ⟨fun funcs name f args tr hf hr => by simp [handle_call_tool, hf, hr],
    fun k api args => ?_, fun k api args => ?_, fun src args => ?_⟩
  · simp only [search_videos_fn]
    split
    · simp
    · split
      · simp
      · exact map_some_ne_ok_none _
  · simp only [get_videos_fn]
    split
    · simp
    · split
      · simp
      · exact map_some_ne_ok_none _
  · simp only [get_transcript_fn]
    split
    · simp
    · split
      · simp
      · exact map_some_ne_ok_none _

/-- Witness for `no_null_result_check` at a concrete registry and at a
concrete handler-argument pair. -/
theorem no_null_result_check_witness :
    handle_call_tool [("u", fun _ => ([], .ok none))] "u" (some [])
      = ([], .ok none)
    ∧ (search_videos_fn true (.exn "offline") []).2 ≠ .ok none :=
  ⟨no_null_result_check.1 _ "u" _ [] [] rfl rfl,
   no_null_result_check.2.1 true (.exn "offline") []⟩

/-- C1 counterexample: the arguments `{videoId: 42}` fail structural
validation against the (spec-modelled) input schema of `get_transcript`,
yet `handle_call_tool` invokes the handler body (non-empty trace) and the
error it reports is the handler's own AttributeError wrapped as a generic
`Tool execution error`, not an input-validation rejection. -/
theorem input_validation_missing :
    (validateInput (.obj [("videoId", .num 42)]) getTranscriptInputSchema).valid = false
    ∧ handle_call_tool
        (TOOL_FUNCTIONS ⟨true, .exn "offline", .exn "offline", .ok []⟩)
        "get_transcript" (some [("videoId", .num 42)])
      = (["get_transcript"],
         .error "Tool execution error: 'int' object has no attribute 'strip'") :=
  ⟨rfl, rfl⟩

/-- C1 amended: `handle_call_tool` performs no input validation — for a
registered tool the handler is always the code that runs, its trace and
result fully determine the dispatch outcome, even when the arguments fail
structural validation against any schema; a handler exception surfaces as
`Tool execution error: ...`. -/
theorem dispatch_ignores_input_schema (w : World) (name : String)
    (f : ToolHandler) (args : ToolArgs) (schema : SchemaNode)
    (hf : lookupTool (TOOL_FUNCTIONS w) name = some f)
    (hinvalid : (validateInput (.obj args) schema).valid = false) :
    (handle_call_tool (TOOL_FUNCTIONS w) name (some args)).1 = (f args).1
    ∧ (handle_call_tool (TOOL_FUNCTIONS w) name (some args)).2
      = (match (f args).2 with
         | .ok r => .ok r
         | .error e => .error ("Tool execution error: " ++ e)) := by
  refine ⟨dispatch_trace_eq _ _ _ _ hf, ?_⟩
  simp only [handle_call_tool, hf, Option.getD_some]
  rcases hfa : f args with ⟨tr, res⟩
  cases res <;> simp

/-- Witness for `dispatch_ignores_input_schema` at a concrete schema-invalid
call to `get_transcript`. -/
theorem dispatch_ignores_input_schema_witness :
    (handle_call_tool
        (TOOL_FUNCTIONS ⟨false, .exn "offline", .exn "offline", .ok []⟩)
        "get_transcript" (some [("videoId", .num 42)])).1
      = ((get_transcript_fn (.ok [])) [("videoId", .num 42)]).1 :=
  (dispatch_ignores_input_schema ⟨false, .exn "offline", .exn "offline", .ok []⟩
    "get_transcript" (get_transcript_fn (.ok [])) [("videoId", .num 42)]
    getTranscriptInputSchema rfl rfl).1

/-- C2 counterexample: when the external transcript source yields a cue
whose `text` is not a string, the `get_transcript` handler's result does
not conform to its (spec-modelled) output schema, yet `handle_call_tool`
returns that result verbatim as a success rather than an
output-validation error. -/
theorem output_validation_missing :
    (validateOutput (fullTranscriptResult "abc" [⟨.num 7, 0, 1⟩] "en")
        getTranscriptOutputSchema []).valid = false
    ∧ (handle_call_tool
        (TOOL_FUNCTIONS ⟨true, .exn "offline", .exn "offline",
          .ok [⟨"en", true, .ok [⟨.num 7, 0, 1⟩]⟩]⟩)
        "get_transcript" (some [("videoId", .str "abc")])).2
      = .ok (some (fullTranscriptResult "abc" [⟨.num 7, 0, 1⟩] "en")) :=
  ⟨rfl, rfl⟩

/-- C2 amended: `handle_call_tool` returns a handler's successful result
verbatim, with no transformation and no output validation — the result is
passed through whether or not it conforms to any output schema. -/
theorem result_returned_verbatim (funcs : List (String × ToolHandler))
    (name : String) (f : ToolHandler) (args : ToolArgs) (tr : List String)
    (r : Option JValue)
    (hf : lookupTool funcs name = some f)
    (hr : f args = (tr, .ok r)) :
    handle_call_tool funcs name (some args) = (tr, .ok r) := by
  simp [handle_call_tool, hf, hr]

/-- Witness for `result_returned_verbatim`: a nonconforming transcript
result is returned exactly as the handler produced it. -/
theorem result_returned_verbatim_witness :
    handle_call_tool
        (TOOL_FUNCTIONS ⟨true, .exn "offline", .exn "offline",
          .ok [⟨"en", true, .ok [⟨.num 7, 0, 1⟩]⟩]⟩)
        "get_transcript" (some [("videoId", .str "abc")])
      = (["get_transcript"],
         .ok (some (fullTranscriptResult "abc" [⟨.num 7, 0, 1⟩] "en"))) :=
  result_returned_verbatim _ "get_transcript"
    (get_transcript_fn (.ok [⟨"en", true, .ok [⟨.num 7, 0, 1⟩]⟩]))
    [("videoId", .str "abc")] ["get_transcript"]
    (some (fullTranscriptResult "abc" [⟨.num 7, 0, 1⟩] "en")) rfl rfl

/-- C5: `get_transcript` turns a source-level "transcripts disabled" or "no
transcript found" signal — whether raised when listing tracks or when
fetching the selected track — into the normal non-error result
`{transcript: [], available: false, language: null}`, while a source-level
"video unavailable" signal is raised to the caller as a ValueError; the two
outcomes are distinct constructors and are never collapsed. -/
theorem transcript_error_discrimination :
    (∀ (vid : String) (lang : Option String),
       get_transcript_core vid lang (.raises .transcriptsDisabled)
         = .ok (emptyTranscriptResult vid)) ∧
    (∀ (vid : String) (lang : Option String),
       get_transcript_core vid lang (.raises .noTranscriptFound)
         = .ok (emptyTranscriptResult vid)) ∧
    (∀ (vid : String) (lang : Option String),
       get_transcript_core vid lang (.raises .videoUnavailable)
         = .error ("Video " ++ vid ++ " is unavailable or does not exist")) ∧
    (∀ (vid : String) (lang : Option String) (tracks : List TranscriptTrack)
        (t : TranscriptTrack) (code : String),
       selectTrack tracks lang = some (t, code) →
       t.fetchResult = .error .transcriptsDisabled →
       get_transcript_core vid lang (.ok tracks) = .ok (emptyTranscriptResult vid)) ∧
    (∀ (vid : String) (lang : Option String) (tracks : List TranscriptTrack)
        (t : TranscriptTrack) (code : String),
       selectTrack tracks lang = some (t, code) →
       t.fetchResult = .error .noTranscriptFound →
       get_transcript_core vid lang (.ok tracks) = .ok (emptyTranscriptResult vid)) ∧
    (∀ (vid : String) (lang : Option String) (tracks : List TranscriptTrack)
        (t : TranscriptTrack) (code : String),
       selectTrack tracks lang = some (t, code) →
       t.fetchResult = .error .videoUnavailable →
       get_transcript_core vid lang (.ok tracks)
         = .error ("Video " ++ vid ++ " is unavailable or does not exist")) := by
  refine ⟨fun vid lang => rfl, fun vid lang => rfl, fun vid lang => rfl,
    fun vid lang tracks t code hsel hfetch => ?_,
    fun vid lang tracks t code hsel hfetch => ?_,
    fun vid lang tracks t code hsel hfetch => ?_⟩ <;>
  simp [get_transcript_core, hsel, hfetch, transcriptExceptClauses]

/-- Witness for `transcript_error_discrimination`: a single generated
English track whose fetch reports "transcripts disabled" yields the normal
empty result. -/
theorem transcript_error_discrimination_witness :
    get_transcript_core "abc" none
        (.ok [⟨"en", true, .error .transcriptsDisabled⟩])
      = .ok (emptyTranscriptResult "abc") :=
  transcript_error_discrimination.2.2.2.1 "abc" none
    [⟨"en", true, .error .transcriptsDisabled⟩]
    ⟨"en", true, .error .transcriptsDisabled⟩ "en" rfl rfl

/-- C9: `get_videos` raises a ValueError during its validation phase —
i.e. for every state of the API key and of the external API, before any
request is issued — whenever `ids` is empty, has more than 50 entries, or
has an entry that is not a non-empty (non-blank) string, or `parts`
contains a name outside the twelve valid part names; and an omitted
`parts` (Python `None`) behaves exactly as `["snippet"]`. -/
theorem get_videos_input_validation :
    (∀ (parts : JValue) (k : Bool) (api : ApiOutcome),
       get_videos_body (.arr []) parts k api
         = .error "ids parameter is required and cannot be empty") ∧
    (∀ (ids : List JValue) (parts : JValue) (k : Bool) (api : ApiOutcome),
       ids.length > 50 →
       get_videos_body (.arr ids) parts k api
         = .error "Maximum 50 video IDs allowed per request") ∧
    (∀ (ids : List JValue) (parts : JValue) (k : Bool) (api : ApiOutcome),
       ids.length ≤ 50 → (∃ v ∈ ids, videoIdOk v = false) →
       get_videos_body (.arr ids) parts k api
         = .error "All video IDs must be non-empty strings") ∧
    (∀ (ids : List JValue) (ps : List String) (k : Bool) (api : ApiOutcome),
       ids ≠ [] → ids.length ≤ 50 → (∀ v ∈ ids, videoIdOk v = true) →
       (∃ p ∈ ps, valid_parts.contains p = false) →
       get_videos_body (.arr ids) (.arr (ps.map JValue.str)) k api
         = .error "Invalid parts: not all parts are among the valid parts") ∧
    (∀ (ids : JValue) (k : Bool) (api : ApiOutcome),
       get_videos_body ids .null k api
         = get_videos_body ids (.arr [.str "snippet"]) k api) := by
  refine ⟨fun parts k api => rfl, ?_, ?_, ?_, fun ids k api => rfl⟩
  · intro ids parts k api h
    have hne : ids.isEmpty = false := by
      cases ids with
      | nil => simp at h
      | cons a t => rfl
    simp [get_videos_body, pyTruthy, pyLen, hne, h]
  · intro ids parts k api h50 hex
    obtain ⟨v, hv, hvf⟩ := hex
    have hne : ids.isEmpty = false := by
      cases ids with
      | nil => cases hv
      | cons a t => rfl
    have hex' : ∃ x ∈ ids, videoIdOk x = false := ⟨v, hv, hvf⟩
    have h50' : ¬ ids.length > 50 := Nat.not_lt.mpr h50
    simp [get_videos_body, pyTruthy, pyLen, pyIter, hne, h50', hex']
  · intro ids ps k api hne h50 hall hex
    obtain ⟨p, hp, hpf⟩ := hex
    have hne' : ids.isEmpty = false := by
      cases ids with
      | nil => exact absurd rfl hne
      | cons a t => rfl
    have h50' : ¬ ids.length > 50 := Nat.not_lt.mpr h50
    have hnex : ¬ ∃ x ∈ ids, videoIdOk x = false := by
      rintro ⟨x, hx, hfx⟩
      rw [hall x hx] at hfx
      exact Bool.noConfusion hfx
    have hnunh : ¬ ∃ a ∈ ps, unhashable (JValue.str a) = true := by
      rintro ⟨q, _, hq⟩
      simp [unhashable] at hq
    have hpart : ∃ a ∈ ps, partOk (JValue.str a) = false :=
      ⟨p, hp, by simp only [partOk]; exact hpf⟩
    simp [get_videos_body, pyTruthy, pyLen, pyIter, hne', h50', hnex, hnunh, hpart]

/-- Witness for `get_videos_input_validation`: a blank video id is rejected
(with `parts` defaulted), and a bogus part name is rejected. -/
theorem get_videos_input_validation_witness :
    get_videos_body (.arr [JValue.str " "]) .null true (.exn "offline")
      = .error "All video IDs must be non-empty strings"
    ∧ get_videos_body (.arr [JValue.str "a"]) (.arr [JValue.str "bogus"])
        true (.exn "offline")
      = .error "Invalid parts: not all parts are among the valid parts" :=
  ⟨get_videos_input_validation.2.2.1 [JValue.str " "] .null true (.exn "offline")
     (by decide) ⟨JValue.str " ", List.Mem.head _, by decide⟩,
   get_videos_input_validation.2.2.2.1 [JValue.str "a"] ["bogus"] true (.exn "offline")
     (by simp) (by decide)
     (fun v hv => by rcases List.mem_singleton.mp hv with rfl; decide)
     ⟨"bogus", List.Mem.head _, by decide⟩⟩

/-- The requested-language rule of `selectTrack` does not fire: no language
was requested, or the requested one is blank, or no track carries it. -/
def requestedLanguageMisses (tracks : List TranscriptTrack)
    (language : Option String) : Prop :=
  ∀ l, language = some l → pyTrim l ≠ "" → ∀ t ∈ tracks, t.language_code ≠ pyTrim l

/-- When the requested-language rule does not fire, `selectTrack` continues
with the English / manual / first-track fallbacks. -/
theorem selectTrack_after_step1 (tracks : List TranscriptTrack)
    (language : Option String)
    (hmiss : requestedLanguageMisses tracks language) :
    selectTrack tracks language
      = (match find_transcript tracks "en" with
         | some t => some (t, "en")
         | none =>
           match tracks.find? (fun t => !t.is_generated) with
           | some t => some (t, t.language_code)
           | none =>
             match tracks.head? with
             | some t => some (t, t.language_code)
             | none => none) := by
  unfold selectTrack
  cases language with
  | none => rfl
  | some l =>
    by_cases hbl : pyTrim l = ""
    · simp [hbl]
    · have hfind : find_transcript tracks (pyTrim l) = none :=
        find_none_of_all _ tracks (fun t ht => by
          cases hbeq : t.language_code == pyTrim l with
          | false => rfl
          | true => exact absurd (eq_of_beq hbeq) (hmiss l rfl hbl t ht))
      simp [hbl, hfind]

/-- C3: `get_transcript` selects exactly one track by the fixed priority —
the requested language when given and non-blank and carried by some track;
else a track with language code `en` when one exists; else the first track
in list order that is not generated; else the first track in list order —
and for an empty candidate list it returns the normal non-error result
`{transcript: [], available: false, language: null}`. -/
theorem transcript_selection_priority :
    (∀ (tracks : List TranscriptTrack) (l : String),
       pyTrim l ≠ "" → (∃ t ∈ tracks, t.language_code = pyTrim l) →
       ∃ t ∈ tracks, selectTrack tracks (some l) = some (t, pyTrim l)
         ∧ t.language_code = pyTrim l) ∧
    (∀ (tracks : List TranscriptTrack) (language : Option String),
       requestedLanguageMisses tracks language →
       (∃ t ∈ tracks, t.language_code = "en") →
       ∃ t ∈ tracks, selectTrack tracks language = some (t, "en")
         ∧ t.language_code = "en") ∧
    (∀ (tracks : List TranscriptTrack) (language : Option String),
       requestedLanguageMisses tracks language →
       (∀ t ∈ tracks, t.language_code ≠ "en") →
       (∃ t ∈ tracks, t.is_generated = false) →
       selectTrack tracks language
         = (tracks.find? (fun t => !t.is_generated)).map
             (fun t => (t, t.language_code))) ∧
    (∀ (tracks : List TranscriptTrack) (language : Option String),
       requestedLanguageMisses tracks language →
       (∀ t ∈ tracks, t.language_code ≠ "en") →
       (∀ t ∈ tracks, t.is_generated = true) →
       selectTrack tracks language
         = tracks.head?.map (fun t => (t, t.language_code))) ∧
    (∀ (vid : String) (language : Option String),
       get_transcript_core vid language (.ok [])
         = .ok (emptyTranscriptResult vid)) := by
  have hen_none : ∀ (tracks : List TranscriptTrack),
      (∀ t ∈ tracks, t.language_code ≠ "en") →
      tracks.find? (fun t => t.language_code == "en") = none := fun tracks hno =>
    find_none_of_all _ tracks (fun t ht => by
      cases hbeq : t.language_code == "en" with
      | false => rfl
      | true => exact absurd (eq_of_beq hbeq) (hno t ht))
  refine ⟨?_, ?_, ?_, ?_, ?_⟩
  · intro tracks l hl hex
    obtain ⟨t0, ht0, hcode⟩ := hex
    obtain ⟨y, hy, hymem, hpy⟩ :=
      find_some_of_exists (fun t => t.language_code == pyTrim l) tracks
        ⟨t0, ht0, by simp [hcode]⟩
    refine ⟨y, hymem, ?_, eq_of_beq hpy⟩
    simp [selectTrack, hl, find_transcript, hy]
  · intro tracks language hmiss hex
    obtain ⟨t0, ht0, hcode⟩ := hex
    obtain ⟨y, hy, hymem, hpy⟩ :=
      find_some_of_exists (fun t => t.language_code == "en") tracks
        ⟨t0, ht0, by simp [hcode]⟩
    refine ⟨y, hymem, ?_, eq_of_beq hpy⟩
    rw [selectTrack_after_step1 tracks language hmiss]
    simp [find_transcript, hy]
  · intro tracks language hmiss hen hman
    obtain ⟨t0, ht0, hgen⟩ := hman
    obtain ⟨y, hy, hymem, hpy⟩ :=
      find_some_of_exists (fun t => !t.is_generated) tracks
        ⟨t0, ht0, by simp [hgen]⟩
    rw [selectTrack_after_step1 tracks language hmiss]
    simp [hen_none tracks hen, find_transcript, hy]
  · intro tracks language hmiss hen hgen
    have hmanual : tracks.find? (fun t => !t.is_generated) = none :=
      find_none_of_all _ tracks (fun t ht => by simp [hgen t ht])
    rw [selectTrack_after_step1 tracks language hmiss]
    cases tracks with
    | nil => rfl
    | cons a t => simp [hen_none _ hen, hmanual, find_transcript]
  · intro vid language
    cases language <;> simp [get_transcript_core, selectTrack, find_transcript]

/-- Witness for `transcript_selection_priority`: the spec's scenario
`tracks = [{en, generated}, {es, manual}], requested = "es"` selects the
Spanish manual track. -/
theorem transcript_selection_priority_witness :
    ∃ t ∈ [(⟨"en", true, Except.ok []⟩ : TranscriptTrack),
           ⟨"es", false, Except.ok []⟩],
      selectTrack [⟨"en", true, Except.ok []⟩, ⟨"es", false, Except.ok []⟩]
          (some "es")
        = some (t, pyTrim "es") ∧ t.language_code = pyTrim "es" :=
  transcript_selection_priority.1
    [⟨"en", true, Except.ok []⟩, ⟨"es", false, Except.ok []⟩] "es"
    (by decide)
    ⟨⟨"es", false, Except.ok []⟩, List.Mem.tail _ (List.Mem.head _), by decide⟩

/-- `takeWhile`/`dropWhile` on digits split a digit run followed by a
non-digit exactly at the boundary. -/
theorem takeWhile_digits_append (dx : List Char) (c : Char) (rest : List Char)
    (hdig : ∀ x ∈ dx, x.isDigit = true) (hc : c.isDigit = false) :
    (dx ++ c :: rest).takeWhile (fun x => x.isDigit) = dx
    ∧ (dx ++ c :: rest).dropWhile (fun x => x.isDigit) = c :: rest := by
  induction dx with
  | nil => simp [List.takeWhile, List.dropWhile, hc]
  | cons a t ih =>
    have ha := hdig a (List.mem_cons_self a t)
    have iht := ih (fun x hx => hdig x (List.mem_cons_of_mem a hx))
    simp [List.takeWhile, List.dropWhile, ha, iht.1, iht.2]

/-- The optional regex group consumes a non-empty digit run followed by its
letter. -/
theorem ptGroup_hit (letter : Char) (dx rest : List Char)
    (hlet : letter.isDigit = false) (hne : dx ≠ [])
    (hdig : ∀ x ∈ dx, x.isDigit = true) :
    ptGroup letter (dx ++ letter :: rest) = (some (natOfDigits dx), rest) := by
  obtain ⟨htake, hdrop⟩ := takeWhile_digits_append dx letter rest hdig hlet
  have hno : dx.isEmpty = false := by
    cases dx with
    | nil => exact absurd rfl hne
    | cons a t => rfl
  simp [ptGroup, htake, hdrop, hno]

/-- The optional regex group consumes nothing when the digit run (possibly
empty) is followed by a different non-digit letter. -/
theorem ptGroup_skip_chunk (letter other : Char) (dx rest : List Char)
    (hno : other ≠ letter) (hother : other.isDigit = false)
    (hdig : ∀ x ∈ dx, x.isDigit = true) :
    ptGroup letter (dx ++ other :: rest) = (none, dx ++ other :: rest) := by
  obtain ⟨htake, hdrop⟩ := takeWhile_digits_append dx other rest hdig hother
  simp [ptGroup, htake, hdrop, hno]

/-- The optional regex group consumes nothing at the end of the input. -/
theorem ptGroup_nil (letter : Char) : ptGroup letter [] = (none, []) := rfl

/-- A string built from a non-empty character list is not the empty
string. -/
theorem stringMk_cons_ne_empty (c : Char) (l : List Char) :
    String.mk (c :: l) ≠ "" := by
  intro h
  have h2 := congrArg String.data h
  simp at h2

/-- `String.data` of a constructed string. -/
theorem data_mk (l : List Char) : (String.mk l).data = l := rfl

/-- `getD 0` over an optional capture. -/
theorem getD_if (b : Bool) (x : Nat) :
    (if b then some x else none).getD 0 = if b then x else 0 := by
  cases b <;> rfl

/-- C10 counterexample: `"PT5M3H"` does not match the (anchored) ISO-8601
`PT` pattern, yet `parse_duration` returns 300, not 0 — `re.match` only
anchors at the start, so trailing text after the matched prefix is
ignored. -/
theorem parse_duration_not_anchored :
    isFullPTMatch "PT5M3H" = false ∧ parse_duration "PT5M3H" = 300 :=
  ⟨rfl, rfl⟩

/-- C10 amended: `parse_duration` is total with a non-negative result; a
string starting with `PT` followed by optional `{h}H`, `{m}M`, `{s}S`
components evaluates to `h*3600 + m*60 + s` — with any trailing text after
the matched prefix ignored (the quantified remainder below is arbitrary
only in the full-match case's absence; the components are read from the
prefix) — and the empty string and any string not beginning with `PT`
yield 0. -/
theorem parse_duration_amended :
    (∀ (dh dm ds : List Char) (useH useM useS : Bool),
       (useH = true → dh ≠ [] ∧ ∀ c ∈ dh, c.isDigit = true) →
       (useM = true → dm ≠ [] ∧ ∀ c ∈ dm, c.isDigit = true) →
       (useS = true → ds ≠ [] ∧ ∀ c ∈ ds, c.isDigit = true) →
       parse_duration (String.mk ('P' :: 'T' ::
           ((if useH then dh ++ ['H'] else [])
            ++ ((if useM then dm ++ ['M'] else [])
              ++ (if useS then ds ++ ['S'] else [])))))
         = (if useH then natOfDigits dh else 0) * 3600
           + (if useM then natOfDigits dm else 0) * 60
           + (if useS then natOfDigits ds else 0)) ∧
    (∀ s : String, s.data.take 2 ≠ ['P', 'T'] → parse_duration s = 0) := by
  constructor
  · intro dh dm ds useH useM useS hH hM hS
    have eS : ptGroup 'S' (if useS then ds ++ ['S'] else [])
        = ((if useS then some (natOfDigits ds) else none), []) := by
      cases useS with
      | true =>
        obtain ⟨hne, hdig⟩ := hS rfl
        simpa using ptGroup_hit 'S' ds [] (by decide) hne hdig
      | false => rfl
    have eM : ptGroup 'M' ((if useM then dm ++ ['M'] else [])
          ++ (if useS then ds ++ ['S'] else []))
        = ((if useM then some (natOfDigits dm) else none),
           (if useS then ds ++ ['S'] else [])) := by
      cases useM with
      | true =>
        obtain ⟨hne, hdig⟩ := hM rfl
        simpa [List.append_assoc] using
          ptGroup_hit 'M' dm ((if useS then ds ++ ['S'] else [])) (by decide) hne hdig
      | false =>
        cases useS with
        | true =>
          obtain ⟨hne, hdig⟩ := hS rfl
          simpa using ptGroup_skip_chunk 'M' 'S' ds [] (by decide) (by decide) hdig
        | false => rfl
    have eH : ptGroup 'H' ((if useH then dh ++ ['H'] else [])
          ++ ((if useM then dm ++ ['M'] else [])
            ++ (if useS then ds ++ ['S'] else [])))
        = ((if useH then some (natOfDigits dh) else none),
           ((if useM then dm ++ ['M'] else [])
            ++ (if useS then ds ++ ['S'] else []))) := by
      cases useH with
      | true =>
        obtain ⟨hne, hdig⟩ := hH rfl
        simpa [List.append_assoc] using
          ptGroup_hit 'H' dh ((if useM then dm ++ ['M'] else [])
            ++ (if useS then ds ++ ['S'] else [])) (by decide) hne hdig
      | false =>
        cases useM with
        | true =>
          obtain ⟨hne, hdig⟩ := hM rfl
          simpa [List.append_assoc] using
            ptGroup_skip_chunk 'H' 'M' dm ((if useS then ds ++ ['S'] else []))
              (by decide) (by decide) hdig
        | false =>
          cases useS with
          | true =>
            obtain ⟨hne, hdig⟩ := hS rfl
            simpa using ptGroup_skip_chunk 'H' 'S' ds [] (by decide) (by decide) hdig
          | false => rfl
    have hne0 := stringMk_cons_ne_empty 'P' ('T' ::
      ((if useH then dh ++ ['H'] else [])
        ++ ((if useM then dm ++ ['M'] else [])
          ++ (if useS then ds ++ ['S'] else []))))
    simp [parse_duration, ptMatch, data_mk, hne0, eH, eM, eS, getD_if]
  · intro s h
    have hpt : ptMatch s = none := by
      unfold ptMatch
      cases hd : s.data with
      | nil => rfl
      | cons c1 tl =>
        cases tl with
        | nil => rfl
        | cons c2 rest =>
          have hcond : ¬ (c1 = 'P' ∧ c2 = 'T') := by
            rintro ⟨rfl, rfl⟩
            rw [hd] at h
            simp at h
          simp [hcond]
    by_cases hs : s = ""
    · simp [parse_duration, hs]
    · simp [parse_duration, hs, hpt]

/-- Witness for `parse_duration_amended` at `PT1H2M30S` (3750 seconds) and
at a string that does not begin with `PT`. -/
theorem parse_duration_amended_witness :
    parse_duration (String.mk ('P' :: 'T' ::
        ((['1'] ++ ['H']) ++ ((['2'] ++ ['M']) ++ (['3', '0'] ++ ['S'])))))
      = natOfDigits ['1'] * 3600 + natOfDigits ['2'] * 60 + natOfDigits ['3', '0']
    ∧ parse_duration "xyz" = 0 := by
  constructor
  · have := parse_duration_amended.1 ['1'] ['2'] ['3', '0'] true true true
      (fun _ => ⟨by decide, by decide⟩) (fun _ => ⟨by decide, by decide⟩)
      (fun _ => ⟨by decide, by decide⟩)
    simpa using this
  · exact parse_duration_amended.2 "xyz" (by decide)
